import Mathlib

/-!
Shallow embedding of
`python/sglang/srt/distributed/device_communicators/custom_all_reduce.py`.

The module coordinates a peer-to-peer shared-memory all-reduce across the
ranks of one host.  External collaborators (torch, the native `ops` engine,
`pynvml`, the CUDA runtime, `torch.distributed`) are modelled as oracle
inputs, and the externally visible side effects (native-engine calls, CUDA
frees, NVML session events, broadcasts) are returned as explicit traces.
-/

/-- Model of a `torch.Tensor` as far as `custom_all_reduce.py` observes it:
shape, dtype tag, per-element byte size, contiguity flag, and the backing
storage footprint used by `is_weak_contiguous`. -/
structure Tensor where
  shape : List Nat
  dtype : Nat
  element_size : Nat
  is_contiguous : Bool
  storage_nbytes : Nat
  storage_offset : Nat
  deriving DecidableEq, Repr

/-- `torch.Tensor.numel()`: product of the shape. -/
def Tensor.numel (t : Tensor) : Nat := t.shape.prod

/-- `torch.empty_like(t)`: fresh contiguous tensor with the same shape and
dtype, backing storage exactly covering the elements, offset 0. -/
def empty_like (t : Tensor) : Tensor :=
  { shape := t.shape
    dtype := t.dtype
    element_size := t.element_size
    is_contiguous := true
    storage_nbytes := t.shape.prod * t.element_size
    storage_offset := 0 }

/-- `is_weak_contiguous(inp)` (lines 87-91): contiguous, or the storage
minus the offset exactly matches the logical element span.  The subtraction
is Python integer subtraction, hence performed in `Int`. -/
def is_weak_contiguous (inp : Tensor) : Bool :=
  inp.is_contiguous ||
    ((inp.storage_nbytes : Int) - (inp.storage_offset * inp.element_size : Nat)
      == (inp.numel * inp.element_size : Nat))

/-- Externally visible side effects of the coordinator: calls into the
native engine (`ops`), CUDA runtime frees, and the per-rank broadcasts of
`register_graph_buffers`. -/
inductive Call where
  | allReduce (ptr : Nat) (inp out : Tensor)
  | disposeEngine (ptr : Nat)
  | cudaFree (addr : Nat)
  | getMeta (ptr : Nat)
  | registerBufs (ptr : Nat)
  | broadcastRow (src : Nat)
  deriving DecidableEq, Repr

/-- The mutable state of a `CustomAllreduce` instance.  Fields that the
Python constructor leaves unset on early-return (disabled) paths carry
arbitrary defaults here; no code path reads them while `disabled` is true. -/
structure CustomAllreduce where
  _IS_CAPTURING : Bool
  disabled : Bool
  max_size : Nat
  rank : Nat
  world_size : Nat
  full_nvlink : Bool
  max_required_workspace_size : List Nat
  barrier_max_size : Nat
  buffer_ptrs : List Nat
  tmp_result_buffer_ptrs : List Nat
  barrier_in_ptrs : List Nat
  barrier_out_ptrs : List Nat
  _ptr : Nat
  deriving DecidableEq, Repr

/-- `CustomAllreduce._SUPPORTED_WORLD_SIZES = [2, 4, 6, 8]`. -/
def CustomAllreduce._SUPPORTED_WORLD_SIZES : List Nat := [2, 4, 6, 8]

/-- `CustomAllreduce.should_custom_ar` (lines 299-322). -/
def CustomAllreduce.should_custom_ar (self : CustomAllreduce) (inp : Tensor) : Bool :=
  if self.disabled then false
  else
    let inp_size := inp.numel * inp.element_size
    if inp_size % 16 != 0 then false
    else if !(is_weak_contiguous inp) then false
    else if self.world_size == 2 then
      decide (inp_size < self.max_size) &&
        decide (inp_size < self.max_required_workspace_size.getD 0 0)
    else if self.full_nvlink then
      decide (inp_size < self.max_size) &&
        decide (inp_size < self.max_required_workspace_size.getD 1 0)
    else false

/-- `CustomAllreduce.all_reduce` (lines 324-339): out-of-place reduce via
the native engine; allocates the output when the caller supplies none.
Returns the output together with the engine-call trace. -/
def CustomAllreduce.all_reduce (self : CustomAllreduce) (inp : Tensor)
    (out : Option Tensor := none) : Tensor × List Call :=
  let o := out.getD (empty_like inp)
  (o, [Call.allReduce self._ptr inp o])

/-- `CustomAllreduce.custom_all_reduce` (lines 341-354).  The oracle
`is_current_stream_capturing` stands for
`torch.cuda.is_current_stream_capturing()`. -/
def CustomAllreduce.custom_all_reduce (self : CustomAllreduce) (input : Tensor)
    (is_current_stream_capturing : Bool) : Option Tensor × List Call :=
  if self.disabled || !(self.should_custom_ar input) then (none, [])
  else if self._IS_CAPTURING then
    if is_current_stream_capturing then
      let r := self.all_reduce input
      (some r.1, r.2)
    else
      (some (empty_like input), [])
  else
    let r := self.all_reduce input
    (some r.1, r.2)

/-- `CustomAllreduce.free_shared_buffer` (lines 258-264): the local rank
frees only its own slot `pointers[rank]`. -/
def CustomAllreduce.free_shared_buffer (pointers : List Nat) (rank : Nat) : List Call :=
  [Call.cudaFree (pointers.getD rank 0)]

/-- `CustomAllreduce.close` (lines 356-363): guarded by
`not self.disabled and self._ptr`; disposes the engine, frees the local
slot of each of the four shared regions, zeroes `_ptr`. -/
def CustomAllreduce.close (self : CustomAllreduce) : CustomAllreduce × List Call :=
  if self.disabled = false ∧ self._ptr ≠ 0 then
    ({ self with _ptr := 0 },
      Call.disposeEngine self._ptr ::
        (CustomAllreduce.free_shared_buffer self.buffer_ptrs self.rank ++
         CustomAllreduce.free_shared_buffer self.tmp_result_buffer_ptrs self.rank ++
         CustomAllreduce.free_shared_buffer self.barrier_in_ptrs self.rank ++
         CustomAllreduce.free_shared_buffer self.barrier_out_ptrs self.rank))
  else (self, [])

/-- `CustomAllreduce.__del__` (lines 365-366): destruction always invokes
`close()`. -/
def CustomAllreduce.del (self : CustomAllreduce) : CustomAllreduce × List Call :=
  self.close

/-! ### Constructor (`CustomAllreduce.__init__`, lines 99-231)

The constructor consults external collaborators (the `sgl_kernel` import,
`torch.distributed`, NVML, the P2P cache, the native engine).  Their answers
are collected in `InitEnv`; construction itself is the decision sequence of
the source, returning `Except` so that a raising `assert` is observable. -/

/-- Oracle answers consumed by `CustomAllreduce.__init__`. -/
structure InitEnv where
  /-- `custom_ar`: the `sgl_kernel` import succeeded (lines 23-29). -/
  custom_ar : Bool
  /-- `dist.get_backend(group) == dist.Backend.NCCL` (line 126). -/
  backend_is_nccl : Bool
  /-- `in_the_same_node_as(group, source_rank=0)` (line 129). -/
  same_node : List Bool
  /-- `dist.get_rank(group)` (line 137). -/
  rank : Nat
  /-- `dist.get_world_size(group)` (line 138). -/
  world_size : Nat
  /-- `is_cuda()` (line 178). -/
  cuda_platform : Bool
  /-- `is_full_nvlink(physical_device_ids)` (line 180). -/
  full_nvlink : Bool
  /-- `_can_p2p(rank, world_size)` (line 191). -/
  can_p2p : Bool
  /-- result of `create_shared_buffer(max_size)` (line 210). -/
  buffer_ptrs : List Nat
  /-- result of `create_shared_buffer(max_size)` (line 211). -/
  tmp_result_buffer_ptrs : List Nat
  /-- result of `create_shared_buffer(barrier_max_size)` (line 215). -/
  barrier_in_ptrs : List Nat
  /-- result of `create_shared_buffer(barrier_max_size)` (line 218). -/
  barrier_out_ptrs : List Nat
  /-- handle returned by `ops.init_custom_ar` (line 222). -/
  init_ptr : Nat
  deriving DecidableEq, Repr

/-- The state after `self._IS_CAPTURING = False; self.disabled = True`
(lines 115-116) with every other attribute still unset.  Unset attributes
are given arbitrary defaults; they are never read while `disabled`. -/
def initBase : CustomAllreduce :=
  { _IS_CAPTURING := false
    disabled := true
    max_size := 0
    rank := 0
    world_size := 0
    full_nvlink := false
    max_required_workspace_size := []
    barrier_max_size := 0
    buffer_ptrs := []
    tmp_result_buffer_ptrs := []
    barrier_in_ptrs := []
    barrier_out_ptrs := []
    _ptr := 0 }

/-- `CustomAllreduce.__init__` (lines 99-231) as the source's decision
sequence.  `.error` models a raising `assert`; every other unsupported
configuration returns the disabled `initBase`. -/
def CustomAllreduce.init (env : InitEnv) (max_size : Nat := 8192 * 1024) :
    Except String CustomAllreduce :=
  if env.custom_ar = false then .ok initBase
  else if env.backend_is_nccl then
    .error "CustomAllreduce should be attached to a non-NCCL group."
  else if !(env.same_node.all (fun b => b)) then .ok initBase
  else if env.world_size == 1 then .ok initBase
  else if env.world_size ∉ CustomAllreduce._SUPPORTED_WORLD_SIZES then .ok initBase
  else if env.cuda_platform = false then .error "assert is_cuda()"
  else if env.world_size > 2 ∧ env.full_nvlink = false then .ok initBase
  else if env.can_p2p = false then .ok initBase
  else
    .ok
      { _IS_CAPTURING := false
        disabled := false
        max_size := max_size
        rank := env.rank
        world_size := env.world_size
        full_nvlink := env.full_nvlink
        max_required_workspace_size := [16 * 1024 * 1024, 8 * 1024 * 1024]
        barrier_max_size := 8 * (36 + 2) * 8
        buffer_ptrs := env.buffer_ptrs
        tmp_result_buffer_ptrs := env.tmp_result_buffer_ptrs
        barrier_in_ptrs := env.barrier_in_ptrs
        barrier_out_ptrs := env.barrier_out_ptrs
        _ptr := env.init_ptr }

/-! ### Shared-buffer registry (lines 233-264) -/

/-- Oracle answers consumed by `create_shared_buffer`: the local
`cudaMalloc` result, the `all_gather_object`-exchanged handle table, and
`cudaIpcOpenMemHandle` as an import function on handles. -/
structure IpcEnv where
  world_size : Nat
  rank : Nat
  /-- `pointer = lib.cudaMalloc(size_in_bytes)` (line 242). -/
  localPtr : Nat
  /-- `handles` after `dist.all_gather_object` (lines 246-247). -/
  gathered : List Nat
  /-- `lib.cudaIpcOpenMemHandle(h).value` (line 254). -/
  importHandle : Nat → Nat

/-- `CustomAllreduce.create_shared_buffer` (lines 233-256): the pointer
table, ordered by rank index; own slot is the local allocation, every
other slot the imported mapping of that rank's exported handle. -/
def CustomAllreduce.create_shared_buffer (env : IpcEnv) : List Nat :=
  env.gathered.enum.map (fun ih =>
    if ih.1 == env.rank then env.localPtr else env.importHandle ih.2)

/-! ### Capture session and graph-buffer registration (lines 266-297) -/

/-- `CustomAllreduce.register_graph_buffers` (lines 281-297) as a trace:
query the native engine for the local metadata, broadcast one row per rank
in ascending rank order, then register the merged table with the engine. -/
def CustomAllreduce.register_graph_buffers_trace (self : CustomAllreduce)
    (ranks : List Nat) : List Call :=
  Call.getMeta self._ptr ::
    (ranks.mergeSort (fun a b => a ≤ b)).map Call.broadcastRow ++
      [Call.registerBufs self._ptr]

/-- `CustomAllreduce.capture` (lines 266-279).  The body of the `with`
block is abstract: it receives the coordinator with `_IS_CAPTURING = True`
and reports its final state, its trace, and whether it completed without
raising.  The `finally` block clears the flag and, when not disabled, runs
one `register_graph_buffers` pass — on both normal and error exits; the
body's outcome flag is then propagated unchanged. -/
def CustomAllreduce.capture (self : CustomAllreduce)
    (body : CustomAllreduce → CustomAllreduce × List Call × Bool)
    (ranks : List Nat) : CustomAllreduce × List Call × Bool :=
  let entered := { self with _IS_CAPTURING := true }
  let r := body entered
  let left := { r.1 with _IS_CAPTURING := false }
  if left.disabled then (left, r.2.1, r.2.2)
  else (left, r.2.1 ++ left.register_graph_buffers_trace ranks, r.2.2)

/-! ### Capability probes (lines 37-84) -/

/-- Events of the scoped NVML session installed by `with_nvml_context`
(lines 37-46) around `is_full_nvlink`. -/
inductive NvmlEvent where
  | init
  | shutdown
  | query (handle peer_handle : Nat)
  deriving DecidableEq, Repr

/-- `pynvml.NVML_P2P_STATUS_OK`. -/
def NVML_P2P_STATUS_OK : Nat := 0

/-- The unordered pairs `(handles[i], handles[j])`, `i < j`, in the order
of the nested `enumerate` loops of `is_full_nvlink` (lines 55-57). -/
def upairs : List Nat → List (Nat × Nat)
  | [] => []
  | x :: xs => xs.map (fun y => (x, y)) ++ upairs xs

/-- The pair loop of `is_full_nvlink` (lines 55-69).  `q` models
`pynvml.nvmlDeviceGetP2PStatus` on a pair of device handles: `.error`
is a raised `NVMLError` (caught, logged, `return False`); a status other
than `NVML_P2P_STATUS_OK` also returns `False`. -/
def nvlinkLoop (q : Nat → Nat → Except Unit Nat) :
    List (Nat × Nat) → Bool × List NvmlEvent
  | [] => (true, [])
  | p :: rest =>
    match q p.1 p.2 with
    | .error _ => (false, [NvmlEvent.query p.1 p.2])
    | .ok s =>
      if s != NVML_P2P_STATUS_OK then (false, [NvmlEvent.query p.1 p.2])
      else
        let r := nvlinkLoop q rest
        (r.1, NvmlEvent.query p.1 p.2 :: r.2)

/-- `is_full_nvlink` (lines 49-70) under `with_nvml_context` (lines
37-46): `nvmlInit`, the pair loop (device handles are identified with the
physical ids they are obtained from), then `nvmlShutdown` in a `finally`
block, hence on every path. -/
def is_full_nvlink (physical_device_ids : List Nat)
    (q : Nat → Nat → Except Unit Nat) : Bool × List NvmlEvent :=
  let r := nvlinkLoop q (upairs physical_device_ids)
  (r.1, NvmlEvent.init :: r.2 ++ [NvmlEvent.shutdown])

/-- The loop of `_can_p2p` (lines 76-84) over the remaining rank indices.
`drv` models `torch.cuda.can_device_access_peer`, `chk` models
`gpu_p2p_access_check`.  With the skip override the loop returns the
driver's answer for the first peer it reaches. -/
def can_p2p_loop (rank : Nat) (skip : Bool) (drv chk : Nat → Nat → Bool) :
    List Nat → Bool
  | [] => true
  | i :: rest =>
    if i == rank then can_p2p_loop rank skip drv chk rest
    else if skip then drv rank i
    else if !(chk rank i) then false
    else can_p2p_loop rank skip drv chk rest

/-- `_can_p2p(rank, world_size)` (lines 73-84).  `skip` is the
`SGLANG_SKIP_P2P_CHECK` environment override. -/
def _can_p2p (rank world_size : Nat) (skip : Bool)
    (drv chk : Nat → Nat → Bool) : Bool :=
  can_p2p_loop rank skip drv chk (List.range world_size)

/-! ### Concrete instances used by the witness theorems -/

/-- An enabled coordinator as produced by a successful 2-rank construction. -/
def caEx : CustomAllreduce :=
  { _IS_CAPTURING := false
    disabled := false
    max_size := 8192 * 1024
    rank := 0
    world_size := 2
    full_nvlink := true
    max_required_workspace_size := [16 * 1024 * 1024, 8 * 1024 * 1024]
    barrier_max_size := 8 * (36 + 2) * 8
    buffer_ptrs := [1000, 2000]
    tmp_result_buffer_ptrs := [3000, 4000]
    barrier_in_ptrs := [5000, 6000]
    barrier_out_ptrs := [7000, 8000]
    _ptr := 42 }

/-- An eligible input: 64 bytes, contiguous, aligned. -/
def inpEx : Tensor :=
  { shape := [4, 8]
    dtype := 1
    element_size := 2
    is_contiguous := true
    storage_nbytes := 64
    storage_offset := 0 }

/-- Environment whose process group reports an NCCL backend. -/
def ncclEnv : InitEnv :=
  { custom_ar := true
    backend_is_nccl := true
    same_node := [true, true]
    rank := 0
    world_size := 2
    cuda_platform := true
    full_nvlink := true
    can_p2p := true
    buffer_ptrs := [11, 12]
    tmp_result_buffer_ptrs := [13, 14]
    barrier_in_ptrs := [15, 16]
    barrier_out_ptrs := [17, 18]
    init_ptr := 7 }

/-- Environment with unsupported world size 3 and everything else healthy. -/
def ws3Env : InitEnv :=
  { custom_ar := true
    backend_is_nccl := false
    same_node := [true, true, true]
    rank := 0
    world_size := 3
    cuda_platform := true
    full_nvlink := true
    can_p2p := true
    buffer_ptrs := []
    tmp_result_buffer_ptrs := []
    barrier_in_ptrs := []
    barrier_out_ptrs := []
    init_ptr := 9 }

/-- Driver report granting rank 0 access to device 1 but not device 2. -/
def drvEx : Nat → Nat → Bool := fun _ j => j == 1

/-- Count of native-engine graph-buffer registration calls in a trace. -/
def countRegisterPasses (tr : List Call) : Nat :=
  tr.countP (fun c => match c with | Call.registerBufs _ => true | _ => false)

/-! ### Theorems -/

/-- Eligibility implies the coordinator is enabled: `should_custom_ar`
returns `False` first thing when `self.disabled`. -/
theorem should_custom_ar_not_disabled (self : CustomAllreduce) (inp : Tensor)
    (h : self.should_custom_ar inp = true) : self.disabled = false := by
  cases hd : self.disabled
  · rfl
  · simp [CustomAllreduce.should_custom_ar, hd] at h

/-- C1: for an enabled coordinator and an eligible input, `custom_all_reduce`
dispatches three ways: capturing with the stream actively recording performs
the real out-of-place reduction through the native engine and returns its
output; capturing during warm-up returns a fresh tensor of the input's shape
and dtype without any engine call; not capturing performs the real reduction
unconditionally. -/
theorem C1_custom_all_reduce_dispatch (self : CustomAllreduce) (inp : Tensor)
    (h : self.should_custom_ar inp = true) :
    (self._IS_CAPTURING = true →
      self.custom_all_reduce inp true =
        (some (empty_like inp), [Call.allReduce self._ptr inp (empty_like inp)])) ∧
    (self._IS_CAPTURING = true →
      self.custom_all_reduce inp false = (some (empty_like inp), []) ∧
      (empty_like inp).shape = inp.shape ∧ (empty_like inp).dtype = inp.dtype) ∧
    (self._IS_CAPTURING = false → ∀ flag,
      self.custom_all_reduce inp flag =
        (some (empty_like inp), [Call.allReduce self._ptr inp (empty_like inp)])) := by
  have hd := should_custom_ar_not_disabled self inp h
  refine ⟨?_, ?_, ?_⟩
  · intro hc
    simp [CustomAllreduce.custom_all_reduce, CustomAllreduce.all_reduce, hd, h, hc]
  · intro hc
    exact ⟨by simp [CustomAllreduce.custom_all_reduce, hd, h, hc],
      rfl, rfl⟩
  · intro hc flag
    simp [CustomAllreduce.custom_all_reduce, CustomAllreduce.all_reduce, hd, h, hc]

/-- C1 witness: the concrete enabled coordinator `caEx` (not capturing)
performs the real reduction on `inpEx`. -/
theorem C1_witness :
    caEx.custom_all_reduce inpEx true =
      (some (empty_like inpEx), [Call.allReduce 42 inpEx (empty_like inpEx)]) :=
  (C1_custom_all_reduce_dispatch caEx inpEx (by decide)).2.2 rfl true

/-- C2: `should_custom_ar` implements the eligibility procedure: false when
disabled, false when the byte size is not a multiple of 16, false when the
input is not (weakly) contiguous; past those checks, for world size 2 it is
true iff the byte size is strictly below both the global max size and the
larger 2-rank workspace budget, and for world size greater than 2 it is
true iff full-mesh NVLink holds and the byte size is strictly below both
the global max size and the smaller workspace budget; a byte size exactly
equal to the global max size is always ineligible. -/
theorem C2_should_custom_ar_spec (self : CustomAllreduce) (inp : Tensor) :
    (self.disabled = true → self.should_custom_ar inp = false) ∧
    ((inp.numel * inp.element_size) % 16 ≠ 0 → self.should_custom_ar inp = false) ∧
    (is_weak_contiguous inp = false → self.should_custom_ar inp = false) ∧
    (self.disabled = false → (inp.numel * inp.element_size) % 16 = 0 →
      is_weak_contiguous inp = true → self.world_size = 2 →
      (self.should_custom_ar inp = true ↔
        inp.numel * inp.element_size < self.max_size ∧
        inp.numel * inp.element_size < self.max_required_workspace_size.getD 0 0)) ∧
    (self.disabled = false → (inp.numel * inp.element_size) % 16 = 0 →
      is_weak_contiguous inp = true → 2 < self.world_size →
      (self.should_custom_ar inp = true ↔
        self.full_nvlink = true ∧
        inp.numel * inp.element_size < self.max_size ∧
        inp.numel * inp.element_size < self.max_required_workspace_size.getD 1 0)) ∧
    (inp.numel * inp.element_size = self.max_size → self.should_custom_ar inp = false) := by
  refine ⟨?_, ?_, ?_, ?_, ?_, ?_⟩
  · intro hd
    simp [CustomAllreduce.should_custom_ar, hd]
  · intro hmod
    simp [CustomAllreduce.should_custom_ar, hmod]
  · intro hcg
    simp [CustomAllreduce.should_custom_ar, hcg]
  · intro hd hmod hcg hws
    simp [CustomAllreduce.should_custom_ar, hd, hmod, hcg, hws]
  · intro hd hmod hcg hws
    have hne : (self.world_size == 2) = false := by
      simp only [beq_eq_false_iff_ne, ne_eq]
      omega
    cases hn : self.full_nvlink
    · simp [CustomAllreduce.should_custom_ar, hd, hmod, hcg, hne, hn]
    · simp [CustomAllreduce.should_custom_ar, hd, hmod, hcg, hne, hn]
  · intro hmax
    cases hd : self.disabled
    · by_cases hmod : (inp.numel * inp.element_size) % 16 = 0
      · by_cases hcg : is_weak_contiguous inp = true
        · cases hws : self.world_size == 2
          · cases hn : self.full_nvlink
            · simp [CustomAllreduce.should_custom_ar, hd, hmod, hcg, hws, hn]
            · simp [CustomAllreduce.should_custom_ar, hd, hmod, hcg, hws, hn, hmax]
          · simp [CustomAllreduce.should_custom_ar, hd, hmod, hcg, hws, hmax]
        · have hcg2 : is_weak_contiguous inp = false := by
            cases h : is_weak_contiguous inp
            · rfl
            · exact absurd h hcg
          simp [CustomAllreduce.should_custom_ar, hcg2]
      · simp [CustomAllreduce.should_custom_ar, hmod]
    · simp [CustomAllreduce.should_custom_ar, hd]

/-- C2 witness: the concrete coordinator `caEx` (world size 2) accepts the
64-byte aligned contiguous `inpEx`. -/
theorem C2_witness : caEx.should_custom_ar inpEx = true :=
  ((C2_should_custom_ar_spec caEx inpEx).2.2.2.1 rfl (by decide) (by decide)
    rfl).mpr (by decide)

/-- C3 counterexample: with the native engine available and an NCCL-backed
group, construction does not complete with a disabled coordinator — the
`assert` at lines 125-127 raises, so an exception does cross the
construction boundary for this merely-unsupported configuration. -/
theorem C3_counterexample_nccl_raises :
    CustomAllreduce.init ncclEnv (8192 * 1024) =
      Except.error "CustomAllreduce should be attached to a non-NCCL group." ∧
    (CustomAllreduce.init ncclEnv (8192 * 1024)).toOption = none := by
  exact ⟨rfl, rfl⟩

/-- C3 amended: when the native engine is available and the group's
transport is NCCL, construction raises an assertion error ("CustomAllreduce
should be attached to a non-NCCL group") rather than completing with a
disabled coordinator; when the native engine is unavailable, construction
does complete normally with the coordinator permanently disabled. -/
theorem C3_amended_nccl_asserts (env : InitEnv) (ms : Nat) :
    (env.custom_ar = true → env.backend_is_nccl = true →
      CustomAllreduce.init env ms =
        Except.error "CustomAllreduce should be attached to a non-NCCL group.") ∧
    (env.custom_ar = false →
      CustomAllreduce.init env ms = Except.ok initBase ∧ initBase.disabled = true) := by
  constructor
  · intro hlib hnccl
    simp [CustomAllreduce.init, hlib, hnccl]
  · intro hlib
    exact ⟨by simp [CustomAllreduce.init, hlib], rfl⟩

/-- C3 witness: the amended behavior at the concrete `ncclEnv` and a
max size of 64. -/
theorem C3_witness :
    CustomAllreduce.init ncclEnv 64 =
      Except.error "CustomAllreduce should be attached to a non-NCCL group." :=
  (C3_amended_nccl_asserts ncclEnv 64).1 rfl rfl

/-- C4: for every world size outside {2, 4, 6, 8} (world size 1 included),
any coordinator the constructor yields is disabled, and every subsequent
`custom_all_reduce` call on it returns the "not handled" result `None`
with no engine activity. -/
theorem C4_unsupported_world_size (env : InitEnv) (ms : Nat) (ca : CustomAllreduce)
    (hws : env.world_size ∉ CustomAllreduce._SUPPORTED_WORLD_SIZES)
    (h : CustomAllreduce.init env ms = Except.ok ca) :
    ca.disabled = true ∧
    ∀ (inp : Tensor) (s : Bool), ca.custom_all_reduce inp s = (none, []) := by
  have hbase : ca = initBase := by
    unfold CustomAllreduce.init at h
    by_cases h1 : env.custom_ar = false
    · simp [h1] at h
      exact h.symm
    · by_cases h2 : env.backend_is_nccl = true
      · simp [h1, h2] at h
      · by_cases h3 : (!env.same_node.all fun b => b) = true
        · simp [h1, h2, h3] at h
          exact h.symm
        · by_cases h4 : (env.world_size == 1) = true
          · simp [h1, h2, h3, h4] at h
            exact h.symm
          · simp [h1, h2, h3, h4, hws] at h
            exact h.symm
  subst hbase
  refine ⟨rfl, ?_⟩
  intro inp s
  simp [CustomAllreduce.custom_all_reduce, initBase]

/-- C4 witness: the concrete world-size-3 environment yields the disabled
`initBase`, on which a dispatch call returns `None`. -/
theorem C4_witness :
    initBase.disabled = true ∧ initBase.custom_all_reduce inpEx true = (none, []) :=
  ⟨(C4_unsupported_world_size ws3Env 1024 initBase (by decide) rfl).1,
   (C4_unsupported_world_size ws3Env 1024 initBase (by decide) rfl).2 inpEx true⟩

/-- Characterization of the `_can_p2p` loop without the override: true iff
every listed peer index other than `rank` passes `gpu_p2p_access_check`. -/
theorem can_p2p_loop_no_skip (rank : Nat) (drv chk : Nat → Nat → Bool)
    (l : List Nat) :
    can_p2p_loop rank false drv chk l = true ↔
      ∀ i ∈ l, i ≠ rank → chk rank i = true := by
  induction l with
  | nil => simp [can_p2p_loop]
  | cons x xs ih =>
    by_cases hx : x = rank
    · subst hx
      simp [can_p2p_loop, ih]
    · have hbeq : (x == rank) = false := by simp [hx]
      cases hc : chk rank x with
      | false =>
        apply iff_of_false
        · simp [can_p2p_loop, hbeq, hc]
        · intro hall
          have hcx := hall x (List.mem_cons_self x xs) hx
          simp [hc] at hcx
      | true =>
        have hstep : can_p2p_loop rank false drv chk (x :: xs) =
            can_p2p_loop rank false drv chk xs := by
          simp [can_p2p_loop, hbeq, hc]
        rw [hstep, ih]
        constructor
        · intro h i hi hir
          rcases List.mem_cons.mp hi with h1 | h2
          · subst h1
            exact hc
          · exact h i h2 hir
        · intro h i hi hir
          exact h i (List.mem_cons_of_mem x hi) hir

/-- C5 counterexample: with the override set, `_can_p2p` returns true for
rank 0 of world size 3 even though the driver reports no access to device
2 — only the first peer (device 1) is consulted; the quantification over
every peer is lost. -/
theorem C5_counterexample_skip_first_peer_only :
    _can_p2p 0 3 true drvEx drvEx = true ∧ drvEx 0 2 = false := by
  exact ⟨rfl, rfl⟩

/-- C5 amended: without the override, `_can_p2p` returns true iff every
peer rank `i ≠ rank` below the world size passes the authoritative
`gpu_p2p_access_check`, returning false at the first failing peer; with
the override, it returns the driver-reported capability for the first peer
`i ≠ rank` alone and never consults the remaining peers. -/
theorem C5_amended_can_p2p (rank world_size : Nat) (drv chk : Nat → Nat → Bool) :
    (_can_p2p rank world_size false drv chk = true ↔
      ∀ i, i < world_size → i ≠ rank → chk rank i = true) ∧
    (rank = 0 → 2 ≤ world_size →
      _can_p2p rank world_size true drv chk = drv 0 1) ∧
    (0 < rank → 0 < world_size →
      _can_p2p rank world_size true drv chk = drv rank 0) := by
  refine ⟨?_, ?_, ?_⟩
  · rw [_can_p2p, can_p2p_loop_no_skip]
    constructor
    · intro h i hi hir
      exact h i (List.mem_range.mpr hi) hir
    · intro h i hi hir
      exact h i (List.mem_range.mp hi) hir
  · rintro rfl hws
    obtain ⟨n, rfl⟩ : ∃ n, world_size = n + 2 := ⟨world_size - 2, by omega⟩
    simp [_can_p2p, List.range_succ_eq_map, can_p2p_loop]
  · intro hr hws
    obtain ⟨n, rfl⟩ : ∃ n, world_size = n + 1 := ⟨world_size - 1, by omega⟩
    have h0 : (0 == rank) = false := by
      simp only [beq_eq_false_iff_ne, ne_eq]
      omega
    simp [_can_p2p, List.range_succ_eq_map, can_p2p_loop, h0]

/-- C5 witness: the amended override behavior at rank 0, world size 3,
with the concrete driver report `drvEx`. -/
theorem C5_witness : _can_p2p 0 3 true drvEx drvEx = drvEx 0 1 :=
  (C5_amended_can_p2p 0 3 drvEx drvEx).2.1 rfl (by decide)

/-- Each `register_graph_buffers` trace contains exactly one registration
call into the native engine. -/
theorem countRegisterPasses_register_trace (self : CustomAllreduce)
    (ranks : List Nat) :
    countRegisterPasses (self.register_graph_buffers_trace ranks) = 1 := by
  unfold countRegisterPasses CustomAllreduce.register_graph_buffers_trace
  simp only [List.countP_cons, List.countP_append, List.countP_map]
  have hmap : ∀ l : List Nat, List.countP
      ((fun c => match c with | Call.registerBufs _ => true | _ => false) ∘
        Call.broadcastRow) l = 0 := by
    intro l
    rw [List.countP_eq_zero]
    intro a _
    simp [Function.comp]
  rw [hmap]
  simp

/-- Trace counting distributes over concatenation. -/
theorem countRegisterPasses_append (a b : List Call) :
    countRegisterPasses (a ++ b) =
      countRegisterPasses a + countRegisterPasses b :=
  List.countP_append _ a b

/-- C6: ending a capture session (normally or on an error exit of the
body) leaves `_IS_CAPTURING` false and adds exactly one graph-buffer
registration pass when the coordinator is enabled at exit, and none when
it is disabled; the body's outcome (success or raised error) is propagated
unchanged. -/
theorem C6_capture_registration (self : CustomAllreduce)
    (body : CustomAllreduce → CustomAllreduce × List Call × Bool)
    (ranks : List Nat) (s2 : CustomAllreduce) (tr : List Call) (ok : Bool)
    (hbody : body { self with _IS_CAPTURING := true } = (s2, tr, ok)) :
    (self.capture body ranks).1._IS_CAPTURING = false ∧
    (self.capture body ranks).2.2 = ok ∧
    countRegisterPasses (self.capture body ranks).2.1 =
      countRegisterPasses tr + (if s2.disabled then 0 else 1) := by
  cases hd : s2.disabled
  · refine ⟨?_, ?_, ?_⟩
    · simp [CustomAllreduce.capture, hbody, hd]
    · simp [CustomAllreduce.capture, hbody, hd]
    · have htr : (self.capture body ranks).2.1 =
          tr ++ CustomAllreduce.register_graph_buffers_trace
            { s2 with _IS_CAPTURING := false } ranks := by
        simp [CustomAllreduce.capture, hbody, hd]
      rw [htr, countRegisterPasses_append, countRegisterPasses_register_trace]
      simp [hd]
  · refine ⟨?_, ?_, ?_⟩
    · simp [CustomAllreduce.capture, hbody, hd]
    · simp [CustomAllreduce.capture, hbody, hd]
    · have htr : (self.capture body ranks).2.1 = tr := by
        simp [CustomAllreduce.capture, hbody, hd]
      rw [htr]
      simp [hd]

/-- C6 witness: a capture session around an error-exiting body on the
enabled `caEx` still ends with the flag cleared and one registration pass. -/
theorem C6_witness :
    (caEx.capture (fun s => (s, [], false)) [1, 0]).1._IS_CAPTURING = false ∧
    (caEx.capture (fun s => (s, [], false)) [1, 0]).2.2 = false ∧
    countRegisterPasses (caEx.capture (fun s => (s, [], false)) [1, 0]).2.1 = 1 := by
  have h := C6_capture_registration caEx (fun s => (s, [], false)) [1, 0]
    { caEx with _IS_CAPTURING := true } [] false rfl
  exact ⟨h.1, h.2.1, by simpa using h.2.2⟩

/-- C7: `create_shared_buffer` returns a pointer table of length
`world_size` ordered by rank index whose entry at the local rank is the
local allocation's address and whose every other entry is the address
imported from that rank's exported IPC handle; `free_shared_buffer` frees
only the local rank's slot and nothing else. -/
theorem C7_shared_buffer_table (env : IpcEnv)
    (hlen : env.gathered.length = env.world_size)
    (hrank : env.rank < env.world_size) :
    (CustomAllreduce.create_shared_buffer env).length = env.world_size ∧
    (CustomAllreduce.create_shared_buffer env).getD env.rank 0 = env.localPtr ∧
    (∀ i, i < env.world_size → i ≠ env.rank →
      (CustomAllreduce.create_shared_buffer env).getD i 0 =
        env.importHandle (env.gathered.getD i 0)) ∧
    (∀ (ptrs : List Nat) (r : Nat),
      CustomAllreduce.free_shared_buffer ptrs r = [Call.cudaFree (ptrs.getD r 0)]) := by
  have hget : ∀ i, i < env.world_size →
      (CustomAllreduce.create_shared_buffer env)[i]? =
        some (if i == env.rank then env.localPtr
              else env.importHandle (env.gathered.getD i 0)) := by
    intro i hi
    have hi2 : i < env.gathered.length := hlen ▸ hi
    unfold CustomAllreduce.create_shared_buffer
    rw [List.getElem?_map, List.getElem?_enum]
    rw [List.getElem?_eq_getElem hi2]
    simp [List.getD_eq_getElem?_getD, List.getElem?_eq_getElem hi2]
  refine ⟨?_, ?_, ?_, ?_⟩
  · unfold CustomAllreduce.create_shared_buffer
    simp [hlen]
  · rw [List.getD_eq_getElem?_getD, hget env.rank hrank]
    simp
  · intro i hi hir
    have hbeq : (i == env.rank) = false := by simp [hir]
    rw [List.getD_eq_getElem?_getD, hget i hi, hbeq]
    simp
  · intro ptrs r
    rfl

/-- An IPC environment for rank 1 of 3, importing by adding 1. -/
def ipcEx : IpcEnv :=
  { world_size := 3
    rank := 1
    localPtr := 777
    gathered := [100, 200, 300]
    importHandle := fun h => h + 1 }

/-- C7 witness: the concrete 3-rank exchange `ipcEx` — own slot is the
local allocation, slot 0 is the import of handle 100. -/
theorem C7_witness :
    (CustomAllreduce.create_shared_buffer ipcEx).getD 1 0 = 777 ∧
    (CustomAllreduce.create_shared_buffer ipcEx).getD 0 0 = 101 :=
  ⟨(C7_shared_buffer_table ipcEx rfl (by decide)).2.1,
   (C7_shared_buffer_table ipcEx rfl (by decide)).2.2.1 0 (by decide) (by decide)⟩

/-- The pair loop of `is_full_nvlink` succeeds exactly when every listed
pair answers `NVML_P2P_STATUS_OK` without raising. -/
theorem nvlinkLoop_true_iff (q : Nat → Nat → Except Unit Nat)
    (l : List (Nat × Nat)) :
    (nvlinkLoop q l).1 = true ↔
      ∀ p ∈ l, q p.1 p.2 = Except.ok NVML_P2P_STATUS_OK := by
  induction l with
  | nil => simp [nvlinkLoop]
  | cons p rest ih =>
    cases hq : q p.1 p.2 with
    | error e =>
      apply iff_of_false
      · simp [nvlinkLoop, hq]
      · intro hall
        have := hall p (List.mem_cons_self p rest)
        rw [hq] at this
        exact Except.noConfusion this
    | ok s =>
      by_cases hs : s = NVML_P2P_STATUS_OK
      · subst hs
        have hstep : (nvlinkLoop q (p :: rest)).1 = (nvlinkLoop q rest).1 := by
          simp [nvlinkLoop, hq]
        rw [hstep, ih]
        constructor
        · intro h x hx
          rcases List.mem_cons.mp hx with h1 | h2
          · subst h1
            exact hq
          · exact h x h2
        · intro h x hx
          exact h x (List.mem_cons_of_mem p hx)
      · apply iff_of_false
        · simp [nvlinkLoop, hq, hs]
        · intro hall
          have := hall p (List.mem_cons_self p rest)
          rw [hq] at this
          exact hs (Except.ok.injEq _ _ ▸ this)

/-- C8: `is_full_nvlink` returns true iff every unordered device pair
(i, j), i < j, reports one-hop NVLink-OK status; a failing pair or a
raised query error yields false (the error is absorbed — the function
still returns a boolean), and the NVML session trace begins with `init`
and ends with `shutdown` on every path. -/
theorem C8_is_full_nvlink_spec (physical_device_ids : List Nat)
    (q : Nat → Nat → Except Unit Nat) :
    ((is_full_nvlink physical_device_ids q).1 = true ↔
      ∀ p ∈ upairs physical_device_ids,
        q p.1 p.2 = Except.ok NVML_P2P_STATUS_OK) ∧
    (is_full_nvlink physical_device_ids q).2.head? = some NvmlEvent.init ∧
    (is_full_nvlink physical_device_ids q).2.getLast? = some NvmlEvent.shutdown := by
  refine ⟨?_, rfl, ?_⟩
  · unfold is_full_nvlink
    exact nvlinkLoop_true_iff q (upairs physical_device_ids)
  · show (NvmlEvent.init ::
      (nvlinkLoop q (upairs physical_device_ids)).2 ++ [NvmlEvent.shutdown]).getLast? =
        some NvmlEvent.shutdown
    exact List.getLast?_concat _

/-- A query oracle raising on the pair (1, 2) and OK elsewhere. -/
def qErrEx : Nat → Nat → Except Unit Nat :=
  fun i j => if i == 1 && j == 2 then Except.error () else Except.ok 0

/-- C8 witness: on three devices with `qErrEx`, the session still shuts
down, and the result is exactly the all-pairs-OK predicate, which fails
here because pair (1, 2) raises. -/
theorem C8_witness :
    (is_full_nvlink [0, 1, 2] qErrEx).2.getLast? = some NvmlEvent.shutdown ∧
    ((is_full_nvlink [0, 1, 2] qErrEx).1 = true ↔ False) := by
  have h := C8_is_full_nvlink_spec [0, 1, 2] qErrEx
  refine ⟨h.2.2, h.1.trans ?_⟩
  simp only [iff_false]
  intro hall
  have := hall (1, 2) (by decide)
  simp [qErrEx] at this

/-- C9: on an enabled coordinator with a live handle, the first `close()`
disposes the native engine exactly once, frees the local slot of each of
the four shared regions exactly once, and zeroes `_ptr`; a second
`close()` is a no-op leaving the zeroed handle unchanged; `__del__`
always invokes `close()`. -/
theorem C9_close_idempotent (self : CustomAllreduce)
    (hd : self.disabled = false) (hp : self._ptr ≠ 0) :
    (self.close).2 =
      [Call.disposeEngine self._ptr,
       Call.cudaFree (self.buffer_ptrs.getD self.rank 0),
       Call.cudaFree (self.tmp_result_buffer_ptrs.getD self.rank 0),
       Call.cudaFree (self.barrier_in_ptrs.getD self.rank 0),
       Call.cudaFree (self.barrier_out_ptrs.getD self.rank 0)] ∧
    (self.close).1._ptr = 0 ∧
    (self.close).1.close = ((self.close).1, []) ∧
    CustomAllreduce.del self = self.close := by
  have hfst : (self.close).1 = { self with _ptr := 0 } := by
    simp [CustomAllreduce.close, hd, hp]
  refine ⟨?_, ?_, ?_, rfl⟩
  · simp [CustomAllreduce.close, CustomAllreduce.free_shared_buffer, hd, hp]
  · rw [hfst]
  · rw [hfst]
    simp [CustomAllreduce.close]

/-- C9 witness: closing the concrete enabled coordinator `caEx` twice. -/
theorem C9_witness :
    (caEx.close).1._ptr = 0 ∧ (caEx.close).1.close = ((caEx.close).1, []) :=
  ⟨(C9_close_idempotent caEx rfl (by decide)).2.1,
   (C9_close_idempotent caEx rfl (by decide)).2.2.1⟩

/-- Dispatch on an eligible input never returns the "not handled" result,
whatever the capture and stream-recording state. -/
theorem custom_all_reduce_ne_none (ca : CustomAllreduce) (inp : Tensor) (flag : Bool)
    (h : ca.should_custom_ar inp = true) :
    (ca.custom_all_reduce inp flag).1 ≠ none := by
  have hd := should_custom_ar_not_disabled ca inp h
  cases hc : ca._IS_CAPTURING with
  | false =>
    simp [CustomAllreduce.custom_all_reduce, CustomAllreduce.all_reduce, hd, h, hc]
  | true =>
    cases flag with
    | false => simp [CustomAllreduce.custom_all_reduce, hd, h, hc]
    | true =>
      simp [CustomAllreduce.custom_all_reduce, CustomAllreduce.all_reduce, hd, h, hc]

/-- C10: `close()` on an enabled coordinator leaves `disabled` unchanged
(still false) and changes no field other than `_ptr`, so `should_custom_ar`
answers exactly as before the close, and for an input that passes
eligibility `custom_all_reduce` on the closed coordinator still does not
return the "not handled" result `None`. -/
theorem C10_close_keeps_enabled (self : CustomAllreduce) (inp : Tensor)
    (flag : Bool) (hd : self.disabled = false) (hp : self._ptr ≠ 0) :
    (self.close).1.disabled = false ∧
    (self.close).1 = { self with _ptr := 0 } ∧
    (self.close).1.should_custom_ar inp = self.should_custom_ar inp ∧
    (self.should_custom_ar inp = true →
      ((self.close).1.custom_all_reduce inp flag).1 ≠ none) := by
  have hfst : (self.close).1 = { self with _ptr := 0 } := by
    simp [CustomAllreduce.close, hd, hp]
  have hsame : CustomAllreduce.should_custom_ar { self with _ptr := 0 } inp =
      self.should_custom_ar inp := rfl
  refine ⟨by rw [hfst]; exact hd, hfst, by rw [hfst]; exact hsame, ?_⟩
  intro helig
  rw [hfst]
  exact custom_all_reduce_ne_none _ inp flag (hsame.trans helig)

/-- C10 witness: after closing `caEx`, dispatch on the eligible `inpEx`
still does not return `None`. -/
theorem C10_witness : ((caEx.close).1.custom_all_reduce inpEx false).1 ≠ none :=
  (C10_close_keeps_enabled caEx inpEx false rfl (by decide)).2.2.2 (by decide)
